import Mathlib

/-!
# Verification of the SNMG PageRank engine

A shallow embedding of cpp/src/snmg/link_analysis/pagerank.cu from the
cugraph repository, together with theorems checking the natural-language
specification of that translation unit.

Modelling conventions:
* Device buffers of 32-bit floats / doubles are modelled as lists of
  rationals (exact arithmetic standing in for the floating-point values);
  32-bit integer indices are modelled as naturals.
* A raw device pointer that may or may not be allocated is modelled as an
  Option of the buffer contents; freshly allocated but uninitialized
  memory is modelled as a zero-filled buffer.
* The square root used inside the L2 norm has no exact rational
  counterpart, so it is passed in as an explicit function parameter
  sqrtFn; no theorem below depends on its values.
* The vector arithmetic primitives (fill, scal, addv, dot, nrm1, nrm2),
  the distributed degree engine (snmg_degree), the dangling-node kernels
  (flag_leafs_kernel, update_dangling_nodes) and the distributed SpMV
  engine (SNMGcsrmv) live in headers that are not part of the sources
  being verified; they are modelled from the specification text, as
  marked in their doc comments.
* The OpenMP thread-per-GPU region of gdf_snmg_pagerank_impl is modelled
  as a sequential simulation of the master thread (thread 0): the shared
  error status is the fold of the per-thread statuses, and the published
  column is the one the master thread writes.
-/

namespace cugraph

/-- The gdf_error status codes used by this translation unit. -/
inductive GdfError
  | GDF_SUCCESS
  | GDF_INVALID_API_CALL
  | GDF_COLUMN_SIZE_MISMATCH
  | GDF_UNSUPPORTED_DTYPE
  | GDF_VALIDITY_UNSUPPORTED
  deriving DecidableEq, Repr

/-- The gdf column element types relevant to this translation unit. -/
inductive GdfDtype
  | GDF_INT32
  | GDF_INT64
  | GDF_FLOAT32
  | GDF_FLOAT64
  deriving DecidableEq, Repr

/-- A gdf_column: data buffer (none when unpopulated), logical size,
element type and null-marker count. -/
structure GdfColumn where
  data : Option (List ℚ)
  size : ℕ
  dtype : GdfDtype
  null_count : ℕ
  deriving DecidableEq, Repr

/-- The two ValueType template instantiations occurring in the
translation unit (SNMGpagerank is instantiated at double and at
float). -/
inductive Precision
  | float32
  | float64
  deriving DecidableEq, Repr

/-- Transliteration of the two explicit template instantiations
`template class SNMGpagerank<int, double>;` and
`template class SNMGpagerank<int, float>;`. -/
def SNMGpagerank_instantiations : List Precision :=
  [Precision.float64, Precision.float32]

/-- Modelled from the spec: the vector primitive
`fill(length, buffer, value)` (utilities/graph_utils.cuh, not under the
verified sources) writes `value` into every one of the first n entries. -/
def fill (n : ℕ) (value : ℚ) : List ℚ :=
  List.replicate n value

/-- Modelled from the spec: the vector primitive
`scale(length, factor, buffer)` (in place) multiplies each of the first
n entries by the factor. -/
def scal (n : ℕ) (factor : ℚ) (x : List ℚ) : List ℚ :=
  (x.take n).map (fun q => factor * q)

/-- Modelled from the spec: the vector primitive
`addScalar(length, scalar, buffer)` (in place) adds the scalar to each
of the first n entries. -/
def addv (n : ℕ) (c : ℚ) (x : List ℚ) : List ℚ :=
  (x.take n).map (fun q => q + c)

/-- Modelled from the spec: the vector primitive `dot(length, a, b)`
returns the sum of pairwise products over the first n entries. -/
def dot (n : ℕ) (a b : List ℚ) : ℚ :=
  (List.zipWith (fun p q => p * q) (a.take n) (b.take n)).sum

/-- Modelled from the spec: the vector primitive
`norm1(length, buffer)`, the L1 norm (sum of absolute values) of the
first n entries. -/
def nrm1 (n : ℕ) (x : List ℚ) : ℚ :=
  ((x.take n).map (fun q => |q|)).sum

/-- Modelled from the spec: the vector primitive
`norm2(length, buffer)`, the L2 norm of the first n entries; the square
root is the explicit parameter sqrtFn (it has no exact rational
counterpart). -/
def nrm2 (sqrtFn : ℚ → ℚ) (n : ℕ) (x : List ℚ) : ℚ :=
  sqrtFn (((x.take n).map (fun q => q * q)).sum)

/-- Modelled from the spec: the distributed SpMV engine
(SNMGcsrmv::run, snmg/blas/spmv.cuh, not under the verified sources).
Row r of the product: the sum, over the nonzeros of row r of the CSR
matrix (off, ind, val), of the transition value times the source-vector
entry at the global column index. -/
def spmv_run (v_glob : ℕ) (off ind : List ℕ) (val : List ℚ) (x : List ℚ) :
    List ℚ :=
  (List.range v_glob).map (fun r =>
    ((List.range (off.getD (r + 1) 0 - off.getD r 0)).map (fun k =>
      val.getD (off.getD r 0 + k) 0 *
        x.getD (ind.getD (off.getD r 0 + k) 0) 0)).sum)

/-- Modelled from the spec: the distributed degree engine (snmg_degree,
snmg/degree/degree.cuh, not under the verified sources). Degree of
vertex v = count of edges whose column index is v, summed across all
devices' shards. -/
def snmg_degree_vec (v_glob : ℕ) (shards : List (List ℕ)) : List ℕ :=
  (List.range v_glob).map (fun v => (shards.map (fun s => s.count v)).sum)

/-- Embedding of transition_kernel (pagerank.cu lines 35-45):
val[i] = 1.0 / degree[ind[i]] for every edge position i < e, with no
zero guard on the divisor. -/
def transition_kernel (e : ℕ) (ind degree : List ℕ) : List ℚ :=
  (List.range e).map (fun i =>
    1 / ((degree.getD (ind.getD i 0) 0 : ℕ) : ℚ))

/-- Modelled from the spec: the combined effect of
`fill(v_glob, bookmark, 0)`, flag_leafs_kernel and
update_dangling_nodes (utilities/graph_utils.cuh, not under the
verified sources): bookmark[v] = alpha if degree[v] = 0 else 0. -/
def dangling_bookmark (v_glob : ℕ) (degree : List ℕ) (alpha : ℚ) :
    List ℚ :=
  (List.range v_glob).map (fun v =>
    if degree.getD v 0 = 0 then alpha else 0)

/-- The SNMG execution environment: logical worker id and total worker
count (SNMGinfo::get_thread_num / get_num_threads). -/
structure SNMGinfo where
  id : ℕ
  nt : ℕ
  deriving DecidableEq, Repr

/-- The SNMGpagerank solver object (pagerank.cuh/pagerank.cu): borrowed
partition offsets and CSR shard, derived sizes, the damping factor, the
owned transition-value and bookmark device buffers (None = not
allocated), and the setup flag. -/
structure SNMGpagerank where
  id : ℕ
  nt : ℕ
  part_off : List ℕ
  off : List ℕ
  ind : List ℕ
  v_glob : ℕ
  v_loc : ℕ
  e_loc : ℕ
  alpha : ℚ
  bookmark : Option (List ℚ)
  val : Option (List ℚ)
  is_setup : Bool
  deriving DecidableEq, Repr

/-- Embedding of the SNMGpagerank constructor (pagerank.cu lines
48-66): reads v_glob = part_off[nt], v_loc = part_off[id+1] -
part_off[id], e_loc = off[v_loc]; sets is_setup to false and allocates
the bookmark (v_glob entries) and transition-value (e_loc entries)
buffers, contents indeterminate (modelled as zeros). -/
def SNMGpagerank.construct (env : SNMGinfo) (part_off off ind : List ℕ) :
    SNMGpagerank :=
  let v_glob := part_off.getD env.nt 0
  let v_loc := part_off.getD (env.id + 1) 0 - part_off.getD env.id 0
  let e_loc := off.getD v_loc 0
  { id := env.id
    nt := env.nt
    part_off := part_off
    off := off
    ind := ind
    v_glob := v_glob
    v_loc := v_loc
    e_loc := e_loc
    alpha := 0
    bookmark := some (List.replicate v_glob 0)
    val := some (List.replicate e_loc 0)
    is_setup := false }

/-- Embedding of SNMGpagerank::setup (pagerank.cu lines 93-119).
shards holds every device's column-index array (the collective degree
computation reads all of them); degree_fail models the snmg_degree
collective reporting failure, in which case the C++ code throws after
having already stored alpha. A second call throws with the state left
untouched. -/
def SNMGpagerank.setup (st : SNMGpagerank) (alpha_ : ℚ)
    (shards : List (List ℕ)) (degree_fail : Bool) :
    SNMGpagerank × Option String :=
  if st.is_setup = false then
    let st1 := { st with alpha := alpha_ }
    if degree_fail then
      (st1, some "SNMG Degree failed in Pagerank")
    else
      let degree_loc := snmg_degree_vec st.v_glob shards
      let bm := dangling_bookmark st.v_glob degree_loc alpha_
      let tv := transition_kernel st.e_loc st.ind degree_loc
      ({ st1 with
          bookmark := some bm
          val := some tv
          is_setup := true }, none)
  else
    (st, some "Setup can be called only once")

/-- Embedding of the body of the power-iteration loop of
SNMGpagerank::solve (pagerank.cu lines 135-141), acting on the pair
(pagerank vector, dot_res): SpMV in place, scale by alpha, add
dot_res * (1/v_glob) to every entry, recompute dot_res, rescale by the
reciprocal of the L2 norm. -/
def SNMGpagerank.solveLoopBody (sqrtFn : ℚ → ℚ) (st : SNMGpagerank)
    (pd : List ℚ × ℚ) : List ℚ × ℚ :=
  let pr1 := spmv_run st.v_glob st.off st.ind (st.val.getD []) pd.1
  let pr2 := scal st.v_glob st.alpha pr1
  let pr3 := addv st.v_glob (pd.2 * (1 / (st.v_glob : ℚ))) pr2
  let d := dot st.v_glob (st.bookmark.getD []) pr3
  let pr4 := scal st.v_glob (1 / nrm2 sqrtFn st.v_glob pr3) pr3
  (pr4, d)

/-- Embedding of the for-loop of SNMGpagerank::solve:
`for (auto i = 0; i < max_iter; ++i)` running the loop body. -/
def SNMGpagerank.solveLoop (sqrtFn : ℚ → ℚ) (st : SNMGpagerank) :
    ℕ → List ℚ × ℚ → List ℚ × ℚ
  | 0, pd => pd
  | k + 1, pd =>
      SNMGpagerank.solveLoop sqrtFn st k
        (SNMGpagerank.solveLoopBody sqrtFn st pd)

/-- Embedding of SNMGpagerank::solve (pagerank.cu lines 122-147).
Returns the (unmutated) solver state, the contents written to the
caller's pagerank slot, and the thrown error if any. Before setup it
throws and leaves the slot as given. -/
def SNMGpagerank.solve (sqrtFn : ℚ → ℚ) (st : SNMGpagerank)
    (max_iter : ℕ) (prslot : Option (List ℚ)) :
    SNMGpagerank × Option (List ℚ) × Option String :=
  if st.is_setup then
    let pr0 := fill st.v_glob (1 / (st.v_glob : ℚ))
    let dot0 := dot st.v_glob (st.bookmark.getD []) pr0
    let res := SNMGpagerank.solveLoop sqrtFn st max_iter (pr0, dot0)
    let prF := scal st.v_glob (1 / nrm1 st.v_glob res.1) res.1
    (st, some prF, none)
  else
    (st, prslot, some "Solve was called before setup")

/-- The initial (pagerank vector, dot_res) pair described by the
specification of solve: uniform 1/totalVertices, and the dot product of
the bookmark with that vector. -/
def solveStart (st : SNMGpagerank) : List ℚ × ℚ :=
  let pr0 := fill st.v_glob (1 / (st.v_glob : ℚ))
  (pr0, dot st.v_glob (st.bookmark.getD []) pr0)

/-- The computation that the specification ascribes to solve: iterate
the loop body exactly n times from the initial pair, then rescale once
by the reciprocal of the L1 norm. -/
def solveDescr (sqrtFn : ℚ → ℚ) (st : SNMGpagerank) (n : ℕ) : List ℚ :=
  let res := (SNMGpagerank.solveLoopBody sqrtFn st)^[n] (solveStart st)
  scal st.v_glob (1 / nrm1 st.v_glob res.1) res.1

/-- The trace of per-iteration results of the solve loop: one entry per
executed iteration of the loop body. -/
def solveTrace (sqrtFn : ℚ → ℚ) (st : SNMGpagerank) :
    ℕ → List ℚ × ℚ → List (List ℚ × ℚ)
  | 0, _ => []
  | k + 1, pd =>
      SNMGpagerank.solveLoopBody sqrtFn st pd ::
        solveTrace sqrtFn st k (SNMGpagerank.solveLoopBody sqrtFn st pd)

/-- A concrete freshly constructed solver: one device, two vertices,
edges 0 to 1 and 1 to 0 in the transposed CSR. -/
def stEx0 : SNMGpagerank :=
  SNMGpagerank.construct ⟨0, 1⟩ [0, 2] [0, 1, 2] [1, 0]

/-- The concrete solver stEx0 after a successful setup with damping
factor 1/2. -/
def stEx1 : SNMGpagerank :=
  (stEx0.setup ((1 : ℚ) / 2) [[1, 0]] false).1

lemma solveLoop_eq_iterate (sqrtFn : ℚ → ℚ) (st : SNMGpagerank) :
    ∀ (n : ℕ) (pd : List ℚ × ℚ),
      SNMGpagerank.solveLoop sqrtFn st n pd =
        (SNMGpagerank.solveLoopBody sqrtFn st)^[n] pd
  | 0, _ => rfl
  | n + 1, pd => by
      rw [SNMGpagerank.solveLoop, solveLoop_eq_iterate sqrtFn st n,
        Function.iterate_succ_apply]

lemma solveTrace_length (sqrtFn : ℚ → ℚ) (st : SNMGpagerank) :
    ∀ (n : ℕ) (pd : List ℚ × ℚ), (solveTrace sqrtFn st n pd).length = n
  | 0, _ => rfl
  | n + 1, pd => by
      rw [solveTrace, List.length_cons, solveTrace_length sqrtFn st n]

lemma solveTrace_getLastD (sqrtFn : ℚ → ℚ) (st : SNMGpagerank) :
    ∀ (n : ℕ) (pd : List ℚ × ℚ),
      (solveTrace sqrtFn st n pd).getLastD pd =
        SNMGpagerank.solveLoop sqrtFn st n pd
  | 0, _ => rfl
  | n + 1, pd => by
      rw [solveTrace, List.getLastD_cons, solveTrace_getLastD sqrtFn st n,
        SNMGpagerank.solveLoop]

/-- C1: on a set-up solver, solve fills the PageRank vector with the
uniform value 1/totalVertices, sets dotRes to dot(bookmark, vector),
runs the loop body (SpMV, scale by alpha, add dotRes/totalVertices,
recompute dotRes, rescale by the reciprocal of the L2 norm) exactly
maxIterations times with no convergence-based early exit (the iteration
trace has length maxIterations whatever the numeric values), and then
rescales exactly once by the reciprocal of the L1 norm. -/
theorem solve_power_iteration_structure (sqrtFn : ℚ → ℚ)
    (st : SNMGpagerank) (max_iter : ℕ) (slot : Option (List ℚ))
    (h : st.is_setup = true) :
    SNMGpagerank.solve sqrtFn st max_iter slot =
        (st, some (solveDescr sqrtFn st max_iter), none)
      ∧ (solveTrace sqrtFn st max_iter (solveStart st)).length = max_iter
      ∧ (solveTrace sqrtFn st max_iter (solveStart st)).getLastD
            (solveStart st) =
          (SNMGpagerank.solveLoopBody sqrtFn st)^[max_iter]
            (solveStart st) := by
  refine ⟨?_, solveTrace_length sqrtFn st max_iter (solveStart st), ?_⟩
  · simp [SNMGpagerank.solve, h, solveDescr, solveStart,
      solveLoop_eq_iterate]
  · rw [solveTrace_getLastD, solveLoop_eq_iterate]

/-- Witness for C1 at a concrete set-up solver and maxIterations = 2. -/
theorem solve_power_iteration_structure_witness :
    stEx1.is_setup = true ∧
      (SNMGpagerank.solve id stEx1 2 none =
          (stEx1, some (solveDescr id stEx1 2), none)
        ∧ (solveTrace id stEx1 2 (solveStart stEx1)).length = 2
        ∧ (solveTrace id stEx1 2 (solveStart stEx1)).getLastD
              (solveStart stEx1) =
            (SNMGpagerank.solveLoopBody id stEx1)^[2] (solveStart stEx1)) :=
  ⟨by decide, solve_power_iteration_structure id stEx1 2 none (by decide)⟩

/-- C8: solve leaves the solver state untouched (transition values,
bookmark, alpha and the setup flag included), succeeds, and can be
called again on the resulting state. -/
theorem solve_frame_and_ready (sqrtFn : ℚ → ℚ) (st : SNMGpagerank)
    (n n2 : ℕ) (slot slot2 : Option (List ℚ)) (h : st.is_setup = true) :
    (SNMGpagerank.solve sqrtFn st n slot).1 = st
      ∧ (SNMGpagerank.solve sqrtFn st n slot).1.val = st.val
      ∧ (SNMGpagerank.solve sqrtFn st n slot).1.bookmark = st.bookmark
      ∧ (SNMGpagerank.solve sqrtFn st n slot).1.alpha = st.alpha
      ∧ (SNMGpagerank.solve sqrtFn st n slot).1.is_setup = true
      ∧ (SNMGpagerank.solve sqrtFn st n slot).2.2 = none
      ∧ (SNMGpagerank.solve sqrtFn
            (SNMGpagerank.solve sqrtFn st n slot).1 n2 slot2).2.2 =
          none := by
  have h1 : (SNMGpagerank.solve sqrtFn st n slot).1 = st := by
    simp [SNMGpagerank.solve, h]
  refine ⟨h1, by rw [h1], by rw [h1], by rw [h1], by rw [h1, h], ?_, ?_⟩
  · simp [SNMGpagerank.solve, h]
  · rw [h1]; simp [SNMGpagerank.solve, h]

/-- Witness for C8 at a concrete set-up solver. -/
theorem solve_frame_and_ready_witness :
    stEx1.is_setup = true ∧
      ((SNMGpagerank.solve id stEx1 1 none).1 = stEx1
        ∧ (SNMGpagerank.solve id stEx1 1 none).1.val = stEx1.val
        ∧ (SNMGpagerank.solve id stEx1 1 none).1.bookmark = stEx1.bookmark
        ∧ (SNMGpagerank.solve id stEx1 1 none).1.alpha = stEx1.alpha
        ∧ (SNMGpagerank.solve id stEx1 1 none).1.is_setup = true
        ∧ (SNMGpagerank.solve id stEx1 1 none).2.2 = none
        ∧ (SNMGpagerank.solve id
              (SNMGpagerank.solve id stEx1 1 none).1 1 none).2.2 = none) :=
  ⟨by decide, solve_frame_and_ready id stEx1 1 1 none none (by decide)⟩

/-- Counterexample to C4 as stated: on the concrete freshly constructed
solver stEx0, solve does fail with the "not set up" error and leaves
the output slot unwritten, but the solver does hold allocated
transition-value and bookmark buffers (the constructor allocated them,
pagerank.cu lines 61-62), contradicting the claim that no such buffers
are held before setup. -/
theorem solve_before_setup_counterexample :
    stEx0.is_setup = false
      ∧ SNMGpagerank.solve id stEx0 5 none =
          (stEx0, none, some "Solve was called before setup")
      ∧ stEx0.val ≠ none ∧ stEx0.bookmark ≠ none := by
  refine ⟨by decide, by decide, by decide, by decide⟩

/-- C4 (amended): on every solver fresh from the constructor, solve
fails with the "not set up" error and leaves the output slot exactly as
given, while the transition-value and bookmark buffers allocated by the
constructor (sized e_loc and v_glob, contents indeterminate) remain
allocated. -/
theorem solve_before_setup_buffers_allocated (env : SNMGinfo)
    (po off_ ind_ : List ℕ) (sqrtFn : ℚ → ℚ) (n : ℕ)
    (slot : Option (List ℚ)) :
    SNMGpagerank.solve sqrtFn (SNMGpagerank.construct env po off_ ind_) n
        slot =
        (SNMGpagerank.construct env po off_ ind_, slot,
          some "Solve was called before setup")
      ∧ (SNMGpagerank.construct env po off_ ind_).val =
          some (List.replicate
            (SNMGpagerank.construct env po off_ ind_).e_loc 0)
      ∧ (SNMGpagerank.construct env po off_ ind_).bookmark =
          some (List.replicate
            (SNMGpagerank.construct env po off_ ind_).v_glob 0)
      ∧ (SNMGpagerank.construct env po off_ ind_).is_setup = false := by
  refine ⟨?_, rfl, rfl, rfl⟩
  simp [SNMGpagerank.solve, SNMGpagerank.construct]

lemma setup_of_already_setup (st : SNMGpagerank) (a : ℚ)
    (sh : List (List ℕ)) (f : Bool) (h : st.is_setup = true) :
    SNMGpagerank.setup st a sh f =
      (st, some "Setup can be called only once") := by
  simp [SNMGpagerank.setup, h]

/-- C5: after a first successful setup, a second setup call fails with
the "already set up" error and returns the state of the first setup
unchanged (transition values, bookmark, alpha and the setup flag
included). -/
theorem setup_twice_rejected (st : SNMGpagerank) (a a2 : ℚ)
    (sh sh2 : List (List ℕ)) (f2 : Bool) (h : st.is_setup = false) :
    SNMGpagerank.setup (SNMGpagerank.setup st a sh false).1 a2 sh2 f2 =
        ((SNMGpagerank.setup st a sh false).1,
          some "Setup can be called only once")
      ∧ ((SNMGpagerank.setup st a sh false).1).is_setup = true
      ∧ (SNMGpagerank.setup st a sh false).2 = none := by
  have hst : ((SNMGpagerank.setup st a sh false).1).is_setup = true := by
    simp [SNMGpagerank.setup, h]
  exact ⟨setup_of_already_setup _ a2 sh2 f2 hst, hst, by
    simp [SNMGpagerank.setup, h]⟩

/-- Witness for C5 at the concrete fresh solver stEx0. -/
theorem setup_twice_rejected_witness :
    stEx0.is_setup = false ∧
      (SNMGpagerank.setup (SNMGpagerank.setup stEx0 ((1 : ℚ) / 2)
            [[1, 0]] false).1 ((1 : ℚ) / 4) [[1, 0]] false =
          ((SNMGpagerank.setup stEx0 ((1 : ℚ) / 2) [[1, 0]] false).1,
            some "Setup can be called only once")
        ∧ ((SNMGpagerank.setup stEx0 ((1 : ℚ) / 2) [[1, 0]]
              false).1).is_setup = true
        ∧ (SNMGpagerank.setup stEx0 ((1 : ℚ) / 2) [[1, 0]] false).2 =
            none) :=
  ⟨by decide,
    setup_twice_rejected stEx0 ((1 : ℚ) / 2) ((1 : ℚ) / 4) [[1, 0]]
      [[1, 0]] false (by decide)⟩

lemma getD_range_map {α : Type} (f : ℕ → α) (n i : ℕ) (d : α)
    (h : i < n) : ((List.range n).map f).getD i d = f i := by
  rw [List.getD_eq_getElem?_getD, List.getElem?_map, List.getElem?_range h]
  rfl

/-- C2: after a successful setup, every transition value at local edge
position i equals 1/degree[colIndices[i]] (degree taken from the global
degree vector of the collective degree engine), and every bookmark
entry equals alpha for degree-zero vertices and 0 otherwise. -/
theorem setup_transition_and_bookmark (st : SNMGpagerank) (a : ℚ)
    (shards : List (List ℕ)) (h : st.is_setup = false) :
    (SNMGpagerank.setup st a shards false).2 = none
      ∧ (∀ i, i < st.e_loc →
          (((SNMGpagerank.setup st a shards false).1).val.getD []).getD i
              0 =
            1 / (((snmg_degree_vec st.v_glob shards).getD
              (st.ind.getD i 0) 0 : ℕ) : ℚ))
      ∧ (∀ v, v < st.v_glob →
          (((SNMGpagerank.setup st a shards
                false).1).bookmark.getD []).getD v 0 =
            if (snmg_degree_vec st.v_glob shards).getD v 0 = 0 then a
            else 0) := by
  have hval : ((SNMGpagerank.setup st a shards false).1).val =
      some (transition_kernel st.e_loc st.ind
        (snmg_degree_vec st.v_glob shards)) := by
    simp [SNMGpagerank.setup, h]
  have hbm : ((SNMGpagerank.setup st a shards false).1).bookmark =
      some (dangling_bookmark st.v_glob
        (snmg_degree_vec st.v_glob shards) a) := by
    simp [SNMGpagerank.setup, h]
  refine ⟨by simp [SNMGpagerank.setup, h], ?_, ?_⟩
  · intro i hi
    rw [hval, Option.getD_some, transition_kernel,
      getD_range_map _ _ _ _ hi]
  · intro v hv
    rw [hbm, Option.getD_some, dangling_bookmark,
      getD_range_map _ _ _ _ hv]

/-- Witness for C2 at the concrete fresh solver stEx0. -/
theorem setup_transition_and_bookmark_witness :
    stEx0.is_setup = false ∧
      ((SNMGpagerank.setup stEx0 ((1 : ℚ) / 2) [[1, 0]] false).2 = none
        ∧ (∀ i, i < stEx0.e_loc →
            (((SNMGpagerank.setup stEx0 ((1 : ℚ) / 2) [[1, 0]]
                  false).1).val.getD []).getD i 0 =
              1 / (((snmg_degree_vec stEx0.v_glob [[1, 0]]).getD
                (stEx0.ind.getD i 0) 0 : ℕ) : ℚ))
        ∧ (∀ v, v < stEx0.v_glob →
            (((SNMGpagerank.setup stEx0 ((1 : ℚ) / 2) [[1, 0]]
                  false).1).bookmark.getD []).getD v 0 =
              if (snmg_degree_vec stEx0.v_glob [[1, 0]]).getD v 0 = 0
              then (1 : ℚ) / 2 else 0)) :=
  ⟨by decide,
    setup_transition_and_bookmark stEx0 ((1 : ℚ) / 2) [[1, 0]]
      (by decide)⟩

/-- C9: the transition kernel divides by degree[ind[i]] with no zero
guard; whenever every column index of the local shard has a strictly
positive global degree, the divisor is nonzero at every edge position
and the computed value is a genuine reciprocal (value times divisor
equals one). -/
theorem transition_kernel_reciprocal_welldef (e : ℕ)
    (ind degree : List ℕ)
    (h : ∀ i, i < e → 0 < degree.getD (ind.getD i 0) 0) :
    ∀ i, i < e →
      ((degree.getD (ind.getD i 0) 0 : ℕ) : ℚ) ≠ 0
        ∧ (transition_kernel e ind degree).getD i 0 *
            ((degree.getD (ind.getD i 0) 0 : ℕ) : ℚ) = 1 := by
  intro i hi
  have hd : ((degree.getD (ind.getD i 0) 0 : ℕ) : ℚ) ≠ 0 :=
    Nat.cast_ne_zero.mpr (h i hi).ne'
  refine ⟨hd, ?_⟩
  rw [transition_kernel, getD_range_map _ _ _ _ hi,
    one_div_mul_cancel hd]

/-- Witness for C9 on a concrete two-edge shard with all-positive
degrees. -/
theorem transition_kernel_reciprocal_welldef_witness :
    (∀ i, i < 2 → 0 < List.getD [1, 1] (List.getD [1, 0] i 0) 0) ∧
      (∀ i, i < 2 →
        ((List.getD [1, 1] (List.getD [1, 0] i 0) 0 : ℕ) : ℚ) ≠ 0
          ∧ (transition_kernel 2 [1, 0] [1, 1]).getD i 0 *
              ((List.getD [1, 1] (List.getD [1, 0] i 0) 0 : ℕ) : ℚ) =
            1) :=
  ⟨by decide, transition_kernel_reciprocal_welldef 2 [1, 0] [1, 1]
    (by decide)⟩

/-- One OpenMP thread's update of the shared error status
(pagerank.cu lines 219-224): a thread whose coo2csr call failed stores
its local status into the shared slot under the critical section. -/
def statusStep (s : ℕ → GdfError) (acc : GdfError) (i : ℕ) : GdfError :=
  if s i ≠ GdfError.GDF_SUCCESS then s i else acc

/-- The final shared error status of the parallel region: the fold of
every thread's status update over one serialization of the critical
sections. -/
def implStatus (s : ℕ → GdfError) (n : ℕ) : GdfError :=
  (List.range n).foldl (statusStep s) GdfError.GDF_SUCCESS

lemma foldl_statusStep_success (s : ℕ → GdfError) :
    ∀ (l : List ℕ) (a : GdfError),
      (∀ i ∈ l, s i = GdfError.GDF_SUCCESS) →
      l.foldl (statusStep s) a = a
  | [], _, _ => rfl
  | hd :: tl, a, h => by
      rw [List.foldl_cons, statusStep,
        if_neg (by simp [h hd (List.mem_cons_self hd tl)])]
      exact foldl_statusStep_success s tl a
        (fun i hi => h i (List.mem_cons_of_mem hd hi))

lemma foldl_statusStep_fail (s : ℕ → GdfError) :
    ∀ (l : List ℕ) (a : GdfError),
      (∃ i ∈ l, s i ≠ GdfError.GDF_SUCCESS) →
      l.foldl (statusStep s) a ≠ GdfError.GDF_SUCCESS := by
  intro l
  induction l with
  | nil =>
      intro a h
      rcases h with ⟨i, hi, _⟩
      exact absurd hi (List.not_mem_nil i)
  | cons hd tl ih =>
      intro a h
      rw [List.foldl_cons]
      by_cases htl : ∃ i ∈ tl, s i ≠ GdfError.GDF_SUCCESS
      · exact ih _ htl
      · have htl' : ∀ i ∈ tl, s i = GdfError.GDF_SUCCESS := by
          intro i hi
          by_contra hne
          exact htl ⟨i, hi, hne⟩
        rw [foldl_statusStep_success s tl _ htl']
        rcases h with ⟨i, hi, hne⟩
        rcases List.mem_cons.mp hi with heq | hmem
        · subst heq
          rw [statusStep, if_pos hne]
          exact hne
        · exact absurd (htl' i hmem) hne

lemma implStatus_success (s : ℕ → GdfError) (n : ℕ)
    (h : ∀ i, i < n → s i = GdfError.GDF_SUCCESS) :
    implStatus s n = GdfError.GDF_SUCCESS :=
  foldl_statusStep_success s (List.range n) GdfError.GDF_SUCCESS
    (fun i hi => h i (List.mem_range.mp hi))

lemma implStatus_fail (s : ℕ → GdfError) (n i : ℕ) (hi : i < n)
    (h : s i ≠ GdfError.GDF_SUCCESS) :
    implStatus s n ≠ GdfError.GDF_SUCCESS :=
  foldl_statusStep_fail s (List.range n) GdfError.GDF_SUCCESS
    ⟨i, List.mem_range.mpr hi, h⟩

/-- The outcome of one run of gdf_snmg_pagerank_impl: the returned
status, the published output column, and the ValueType instantiation
the run was dispatched to. -/
structure ImplOutcome where
  status : GdfError
  col : GdfColumn
  precision : Precision
  deriving DecidableEq, Repr

/-- Embedding of gdf_snmg_pagerank_impl (pagerank.cu lines 155-270) as
a sequential simulation of the master thread. coo2csrStatus i is the
status the distributed coo2csr step returns on device i; part_offset,
offs and inds are the partition offsets and per-device transposed CSR
shards it produced. The shared status is the fold of the per-thread
critical-section updates; note that the master thread then publishes
the column (data, size = part_offset[n_gpus], dtype = GDF_FLOAT32)
unconditionally, whatever the shared status is. -/
def gdf_snmg_pagerank_impl (prec : Precision) (sqrtFn : ℚ → ℚ)
    (coo2csrStatus : ℕ → GdfError) (part_offset : List ℕ)
    (offs inds : List (List ℕ)) (n_gpus : ℕ) (damping_factor : ℚ)
    (n_iter : ℕ) : ImplOutcome :=
  let status := implStatus coo2csrStatus n_gpus
  let env : SNMGinfo := { id := 0, nt := n_gpus }
  let st0 := SNMGpagerank.construct env part_offset (offs.getD 0 [])
    (inds.getD 0 [])
  let st1 := (SNMGpagerank.setup st0 damping_factor inds false).1
  let pr := (SNMGpagerank.solve sqrtFn st1 n_iter none).2.1
  { status := status
    col := { data := pr
             size := part_offset.getD n_gpus 0
             dtype := GdfDtype.GDF_FLOAT32
             null_count := 0 }
    precision := prec }

/-- The column value a getD falls back to for an out-of-range device
index (the C++ code would read out of bounds there; in-range behavior
is all the theorems rely on). -/
def dfltCol : GdfColumn :=
  { data := none, size := 0, dtype := GdfDtype.GDF_INT32, null_count := 0 }

/-- Embedding of the per-device GDF_REQUIRE chain of gdf_snmg_pagerank
(pagerank.cu lines 296-307), in source order: size equality, dtype
equality, src nulls, dest nulls, src dtype GDF_INT32, dest dtype
GDF_INT32. Returns the status of the first failing check, none if all
pass. -/
def perDeviceChecks (s d : GdfColumn) : Option GdfError :=
  if s.size ≠ d.size then some GdfError.GDF_COLUMN_SIZE_MISMATCH
  else if s.dtype ≠ d.dtype then some GdfError.GDF_UNSUPPORTED_DTYPE
  else if s.null_count ≠ 0 then some GdfError.GDF_VALIDITY_UNSUPPORTED
  else if d.null_count ≠ 0 then some GdfError.GDF_VALIDITY_UNSUPPORTED
  else if s.dtype ≠ GdfDtype.GDF_INT32 then
    some GdfError.GDF_UNSUPPORTED_DTYPE
  else if d.dtype ≠ GdfDtype.GDF_INT32 then
    some GdfError.GDF_UNSUPPORTED_DTYPE
  else none

/-- The per-device validation loop from device i onward, k devices
remaining, with the early return of the first failing check. -/
def checkDevicesFrom (src dest : List GdfColumn) : ℕ → ℕ → Option GdfError
  | _, 0 => none
  | i, k + 1 =>
      match perDeviceChecks (src.getD i dfltCol) (dest.getD i dfltCol) with
      | some e => some e
      | none => checkDevicesFrom src dest (i + 1) k

/-- The whole per-device validation loop
`for (size_t i = 0; i < n_gpus; ++i)` of gdf_snmg_pagerank. -/
def checkDevices (src dest : List GdfColumn) (n : ℕ) : Option GdfError :=
  checkDevicesFrom src dest 0 n

lemma checkDevicesFrom_none (src dest : List GdfColumn) :
    ∀ (k i : ℕ),
      (∀ j, j < k →
        perDeviceChecks (src.getD (i + j) dfltCol)
          (dest.getD (i + j) dfltCol) = none) →
      checkDevicesFrom src dest i k = none
  | 0, _, _ => rfl
  | k + 1, i, h => by
      have h0 := h 0 (Nat.succ_pos k)
      rw [Nat.add_zero] at h0
      rw [checkDevicesFrom, h0]
      exact checkDevicesFrom_none src dest k (i + 1) (fun j hj => by
        have hj' := h (j + 1) (Nat.succ_lt_succ hj)
        rwa [show i + (j + 1) = i + 1 + j by omega] at hj')

lemma checkDevicesFrom_some (src dest : List GdfColumn) (e : GdfError) :
    ∀ (m k i : ℕ), m < k →
      (∀ j, j < m →
        perDeviceChecks (src.getD (i + j) dfltCol)
          (dest.getD (i + j) dfltCol) = none) →
      perDeviceChecks (src.getD (i + m) dfltCol)
        (dest.getD (i + m) dfltCol) = some e →
      checkDevicesFrom src dest i k = some e
  | 0, k, i, hk, _, he => by
      obtain ⟨k', rfl⟩ : ∃ k', k = k' + 1 := ⟨k - 1, by omega⟩
      rw [Nat.add_zero] at he
      rw [checkDevicesFrom, he]
  | m + 1, k, i, hk, hpre, he => by
      obtain ⟨k', rfl⟩ : ∃ k', k = k' + 1 := ⟨k - 1, by omega⟩
      have h0 := hpre 0 (Nat.succ_pos m)
      rw [Nat.add_zero] at h0
      rw [checkDevicesFrom, h0]
      exact checkDevicesFrom_some src dest e m k' (i + 1) (by omega)
        (fun j hj => by
          have hj' := hpre (j + 1) (Nat.succ_lt_succ hj)
          rwa [show i + (j + 1) = i + 1 + j by omega] at hj')
        (by rwa [show i + 1 + m = i + (m + 1) by omega] )

/-- Embedding of the public entry point gdf_snmg_pagerank (pagerank.cu
lines 272-313): null-pointer checks, damping-factor and iteration-count
checks, device-count checks, then the per-device column checks, each
returning its status immediately on failure with the output column left
untouched and the engine never invoked; on success it dispatches
gdf_snmg_pagerank_impl instantiated at int indices and float values.
The third component records which ValueType instantiation was
dispatched (none when validation failed before reaching the engine). -/
def gdf_snmg_pagerank (sqrtFn : ℚ → ℚ) (coo2csrStatus : ℕ → GdfError)
    (part_offset : List ℕ) (offs inds : List (List ℕ))
    (src_col_ptrs dest_col_ptrs : Option (List GdfColumn))
    (pr_col : Option GdfColumn) (dev_count n_gpus : ℕ)
    (damping_factor : ℚ) (n_iter : ℤ) :
    GdfError × Option GdfColumn × Option Precision :=
  match src_col_ptrs, dest_col_ptrs, pr_col with
  | some srcs, some dests, some prc =>
    if ¬ (0 < damping_factor) then
      (GdfError.GDF_INVALID_API_CALL, some prc, none)
    else if ¬ (damping_factor < 1) then
      (GdfError.GDF_INVALID_API_CALL, some prc, none)
    else if ¬ (0 < n_iter) then
      (GdfError.GDF_INVALID_API_CALL, some prc, none)
    else if ¬ (0 < n_gpus) then
      (GdfError.GDF_INVALID_API_CALL, some prc, none)
    else if ¬ (n_gpus < dev_count + 1) then
      (GdfError.GDF_INVALID_API_CALL, some prc, none)
    else
      match checkDevices srcs dests n_gpus with
      | some e => (e, some prc, none)
      | none =>
        let out := gdf_snmg_pagerank_impl Precision.float32 sqrtFn
          coo2csrStatus part_offset offs inds n_gpus damping_factor
          n_iter.toNat
        (out.status, some out.col, some out.precision)
  | _, _, _ => (GdfError.GDF_INVALID_API_CALL, pr_col, none)

lemma solve_output (sqrtFn : ℚ → ℚ) (st : SNMGpagerank) (n : ℕ)
    (slot : Option (List ℚ)) (h : st.is_setup = true) :
    SNMGpagerank.solve sqrtFn st n slot =
      (st, some (solveDescr sqrtFn st n), none) := by
  simp [SNMGpagerank.solve, h, solveDescr, solveStart,
    solveLoop_eq_iterate]

lemma solveLoopBody_fst_length (sqrtFn : ℚ → ℚ) (st : SNMGpagerank)
    (pd : List ℚ × ℚ) :
    (SNMGpagerank.solveLoopBody sqrtFn st pd).1.length = st.v_glob := by
  simp [SNMGpagerank.solveLoopBody, scal, addv, spmv_run,
    List.length_map, List.length_take, List.length_range, min_self]

lemma solveLoop_fst_length (sqrtFn : ℚ → ℚ) (st : SNMGpagerank) :
    ∀ (k : ℕ) (pd : List ℚ × ℚ), pd.1.length = st.v_glob →
      (SNMGpagerank.solveLoop sqrtFn st k pd).1.length = st.v_glob
  | 0, _, h => h
  | k + 1, pd, _ => by
      rw [SNMGpagerank.solveLoop]
      exact solveLoop_fst_length sqrtFn st k _
        (solveLoopBody_fst_length sqrtFn st pd)

lemma solveDescr_length (sqrtFn : ℚ → ℚ) (st : SNMGpagerank) (n : ℕ) :
    (solveDescr sqrtFn st n).length = st.v_glob := by
  have hres : ((SNMGpagerank.solveLoopBody sqrtFn st)^[n]
      (solveStart st)).1.length = st.v_glob := by
    rw [← solveLoop_eq_iterate]
    exact solveLoop_fst_length sqrtFn st n (solveStart st)
      (by simp [solveStart, fill])
  simp [solveDescr, scal, List.length_map, List.length_take, hres,
    min_self]

lemma setup_fst_v_glob (st : SNMGpagerank) (a : ℚ)
    (sh : List (List ℕ)) (f : Bool) :
    ((SNMGpagerank.setup st a sh f).1).v_glob = st.v_glob := by
  unfold SNMGpagerank.setup
  split_ifs <;> rfl

lemma setup_success_is_setup (st : SNMGpagerank) (a : ℚ)
    (sh : List (List ℕ)) (h : st.is_setup = false) :
    ((SNMGpagerank.setup st a sh false).1).is_setup = true := by
  simp [SNMGpagerank.setup, h]

lemma impl_col (prec : Precision) (sqrtFn : ℚ → ℚ) (c : ℕ → GdfError)
    (po : List ℕ) (offs inds : List (List ℕ)) (n_gpus : ℕ) (df : ℚ)
    (ni : ℕ) :
    (gdf_snmg_pagerank_impl prec sqrtFn c po offs inds n_gpus df
        ni).col =
      { data := some (solveDescr sqrtFn
          ((SNMGpagerank.setup
            (SNMGpagerank.construct ⟨0, n_gpus⟩ po (offs.getD 0 [])
              (inds.getD 0 [])) df inds false).1) ni)
        size := po.getD n_gpus 0
        dtype := GdfDtype.GDF_FLOAT32
        null_count := 0 } := by
  have hsetup : ((SNMGpagerank.setup
      (SNMGpagerank.construct ⟨0, n_gpus⟩ po (offs.getD 0 [])
        (inds.getD 0 [])) df inds false).1).is_setup = true :=
    setup_success_is_setup _ df inds rfl
  simp only [gdf_snmg_pagerank_impl]
  rw [solve_output sqrtFn _ ni none hsetup]

/-- A concrete impl run in which the coo2csr collective fails on the
(single) device. -/
def implOutEx : ImplOutcome :=
  gdf_snmg_pagerank_impl Precision.float32 id
    (fun _ => GdfError.GDF_INVALID_API_CALL) [0, 1] [[0, 0]] [[]] 1
    ((1 : ℚ) / 2) 1

/-- Counterexample to C3 as stated: on a concrete run in which the
coo2csr step fails on device 0, the call does return a failure status,
but the output column is not left unpopulated: data, size and dtype are
all written (the master thread's publication at pagerank.cu lines
246-257 is not guarded by the error status). -/
theorem impl_failure_still_publishes_counterexample :
    implOutEx.status ≠ GdfError.GDF_SUCCESS
      ∧ implOutEx.col.data ≠ none
      ∧ implOutEx.col.dtype = GdfDtype.GDF_FLOAT32
      ∧ implOutEx.col.size = 1 :=
  ⟨by decide, by decide, by decide, by decide⟩

/-- C3 (amended): when any worker's coo2csr step fails, the top-level
run returns a failure status, but the output column is nevertheless
populated: the master thread still writes the data buffer, the size
(the last partition offset) and the GDF_FLOAT32 dtype on the failure
path. -/
theorem impl_failure_status_and_publication (prec : Precision)
    (sqrtFn : ℚ → ℚ) (c : ℕ → GdfError) (po : List ℕ)
    (offs inds : List (List ℕ)) (n_gpus : ℕ) (df : ℚ) (ni : ℕ)
    (i : ℕ) (hi : i < n_gpus) (hc : c i ≠ GdfError.GDF_SUCCESS) :
    (gdf_snmg_pagerank_impl prec sqrtFn c po offs inds n_gpus df
          ni).status ≠ GdfError.GDF_SUCCESS
      ∧ (gdf_snmg_pagerank_impl prec sqrtFn c po offs inds n_gpus df
            ni).col.dtype = GdfDtype.GDF_FLOAT32
      ∧ (gdf_snmg_pagerank_impl prec sqrtFn c po offs inds n_gpus df
            ni).col.size = po.getD n_gpus 0
      ∧ (gdf_snmg_pagerank_impl prec sqrtFn c po offs inds n_gpus df
            ni).col.data ≠ none := by
  refine ⟨implStatus_fail c n_gpus i hi hc, rfl, rfl, ?_⟩
  rw [impl_col]
  simp

/-- Witness for the amended C3 at the concrete failing run. -/
theorem impl_failure_status_and_publication_witness :
    (0 < 1
        ∧ (fun _ => GdfError.GDF_INVALID_API_CALL) 0 ≠
            GdfError.GDF_SUCCESS)
      ∧ (implOutEx.status ≠ GdfError.GDF_SUCCESS
          ∧ implOutEx.col.dtype = GdfDtype.GDF_FLOAT32
          ∧ implOutEx.col.size = List.getD [0, 1] 1 0
          ∧ implOutEx.col.data ≠ none) :=
  ⟨⟨by decide, by decide⟩,
    impl_failure_status_and_publication Precision.float32 id
      (fun _ => GdfError.GDF_INVALID_API_CALL) [0, 1] [[0, 0]] [[]] 1
      ((1 : ℚ) / 2) 1 0 (by decide) (by decide)⟩

lemma entry_params_ok_some (sqrtFn : ℚ → ℚ) (c : ℕ → GdfError)
    (po : List ℕ) (offs inds : List (List ℕ))
    (srcs dests : List GdfColumn) (prc : GdfColumn) (dc ng : ℕ)
    (df : ℚ) (ni : ℤ) (e : GdfError) (hdf0 : 0 < df) (hdf1 : df < 1)
    (hni : 0 < ni) (hg : 0 < ng) (hgd : ng ≤ dc)
    (hs : checkDevices srcs dests ng = some e) :
    gdf_snmg_pagerank sqrtFn c po offs inds (some srcs) (some dests)
        (some prc) dc ng df ni = (e, some prc, none) := by
  simp only [gdf_snmg_pagerank]
  rw [if_neg (not_not_intro hdf0), if_neg (not_not_intro hdf1),
    if_neg (not_not_intro hni), if_neg (not_not_intro hg),
    if_neg (not_not_intro (Nat.lt_succ_of_le hgd)), hs]

lemma entry_params_ok_none (sqrtFn : ℚ → ℚ) (c : ℕ → GdfError)
    (po : List ℕ) (offs inds : List (List ℕ))
    (srcs dests : List GdfColumn) (prc : GdfColumn) (dc ng : ℕ)
    (df : ℚ) (ni : ℤ) (hdf0 : 0 < df) (hdf1 : df < 1) (hni : 0 < ni)
    (hg : 0 < ng) (hgd : ng ≤ dc)
    (hs : checkDevices srcs dests ng = none) :
    gdf_snmg_pagerank sqrtFn c po offs inds (some srcs) (some dests)
        (some prc) dc ng df ni =
      ((gdf_snmg_pagerank_impl Precision.float32 sqrtFn c po offs inds
          ng df ni.toNat).status,
        some (gdf_snmg_pagerank_impl Precision.float32 sqrtFn c po offs
          inds ng df ni.toNat).col,
        some (gdf_snmg_pagerank_impl Precision.float32 sqrtFn c po offs
          inds ng df ni.toNat).precision) := by
  simp only [gdf_snmg_pagerank]
  rw [if_neg (not_not_intro hdf0), if_neg (not_not_intro hdf1),
    if_neg (not_not_intro hni), if_neg (not_not_intro hg),
    if_neg (not_not_intro (Nat.lt_succ_of_le hgd)), hs]

/-- C7: on a successful run (all validation passed, every worker's
collective step succeeded), the published result is a dense
GDF_FLOAT32 column whose size and data length equal the total vertex
count, the last partition offset. -/
theorem entry_success_result_column (sqrtFn : ℚ → ℚ)
    (c : ℕ → GdfError) (po : List ℕ) (offs inds : List (List ℕ))
    (srcs dests : List GdfColumn) (prc : GdfColumn) (dc ng : ℕ)
    (df : ℚ) (ni : ℤ) (hall : ∀ i, i < ng → c i = GdfError.GDF_SUCCESS)
    (hdf0 : 0 < df) (hdf1 : df < 1) (hni : 0 < ni) (hg : 0 < ng)
    (hgd : ng ≤ dc)
    (hchk : ∀ i, i < ng →
      perDeviceChecks (srcs.getD i dfltCol) (dests.getD i dfltCol) =
        none) :
    (gdf_snmg_pagerank sqrtFn c po offs inds (some srcs) (some dests)
          (some prc) dc ng df ni).1 = GdfError.GDF_SUCCESS
      ∧ ∃ v, (gdf_snmg_pagerank sqrtFn c po offs inds (some srcs)
            (some dests) (some prc) dc ng df ni).2.1 =
          some { data := some v
                 size := po.getD ng 0
                 dtype := GdfDtype.GDF_FLOAT32
                 null_count := 0 }
          ∧ v.length = po.getD ng 0 := by
  have hcd : checkDevices srcs dests ng = none :=
    checkDevicesFrom_none srcs dests ng 0
      (fun j hj => by simpa using hchk j hj)
  have hentry := entry_params_ok_none sqrtFn c po offs inds srcs dests
    prc dc ng df ni hdf0 hdf1 hni hg hgd hcd
  refine ⟨?_, ⟨solveDescr sqrtFn
    ((SNMGpagerank.setup
      (SNMGpagerank.construct ⟨0, ng⟩ po (offs.getD 0 [])
        (inds.getD 0 [])) df inds false).1) ni.toNat, ?_, ?_⟩⟩
  · rw [hentry]
    exact implStatus_success c ng hall
  · rw [hentry]
    show some (gdf_snmg_pagerank_impl Precision.float32 sqrtFn c po offs
      inds ng df ni.toNat).col = _
    rw [impl_col]
  · rw [solveDescr_length, setup_fst_v_glob]
    rfl

/-- A concrete input column that passes all per-device checks. -/
def colok : GdfColumn :=
  { data := none, size := 2, dtype := GdfDtype.GDF_INT32,
    null_count := 0 }

/-- Witness for C7 at a concrete fully valid single-device input. -/
theorem entry_success_result_column_witness :
    (∀ i, i < 1 →
        (fun _ => GdfError.GDF_SUCCESS) i = GdfError.GDF_SUCCESS)
      ∧ (∀ i, i < 1 →
          perDeviceChecks (List.getD [colok] i dfltCol)
            (List.getD [colok] i dfltCol) = none)
      ∧ ((gdf_snmg_pagerank id (fun _ => GdfError.GDF_SUCCESS) [0, 1]
            [[0, 0]] [[]] (some [colok]) (some [colok]) (some colok) 1 1
            ((1 : ℚ) / 2) 1).1 = GdfError.GDF_SUCCESS
        ∧ ∃ v, (gdf_snmg_pagerank id (fun _ => GdfError.GDF_SUCCESS)
              [0, 1] [[0, 0]] [[]] (some [colok]) (some [colok])
              (some colok) 1 1 ((1 : ℚ) / 2) 1).2.1 =
            some { data := some v
                   size := List.getD [0, 1] 1 0
                   dtype := GdfDtype.GDF_FLOAT32
                   null_count := 0 }
            ∧ v.length = List.getD [0, 1] 1 0) :=
  ⟨by decide, by decide,
    entry_success_result_column id (fun _ => GdfError.GDF_SUCCESS)
      [0, 1] [[0, 0]] [[]] [colok] [colok] colok 1 1 ((1 : ℚ) / 2) 1
      (by decide) (by norm_num) (by norm_num) (by decide) (by decide)
      (by decide) (by decide)⟩

/-- C10: the public entry point never dispatches any instantiation
other than int/float32 (the precision tag of the outcome is either
absent, when validation fails, or float32), and whenever the engine was
invoked the published column's element type is GDF_FLOAT32 — even
though a double-precision SNMGpagerank instantiation exists in the
translation unit. -/
theorem entry_always_float32 (sqrtFn : ℚ → ℚ) (c : ℕ → GdfError)
    (po : List ℕ) (offs inds : List (List ℕ))
    (src dest : Option (List GdfColumn)) (pr : Option GdfColumn)
    (dc ng : ℕ) (df : ℚ) (ni : ℤ) :
    ((gdf_snmg_pagerank sqrtFn c po offs inds src dest pr dc ng df
          ni).2.2 = none
        ∨ (gdf_snmg_pagerank sqrtFn c po offs inds src dest pr dc ng df
            ni).2.2 = some Precision.float32)
      ∧ ((gdf_snmg_pagerank sqrtFn c po offs inds src dest pr dc ng df
            ni).2.2 ≠ none →
          ∃ col, (gdf_snmg_pagerank sqrtFn c po offs inds src dest pr dc
              ng df ni).2.1 = some col
            ∧ col.dtype = GdfDtype.GDF_FLOAT32)
      ∧ Precision.float64 ∈ SNMGpagerank_instantiations
      ∧ Precision.float32 ∈ SNMGpagerank_instantiations := by
  rcases src with _ | srcs
  · exact ⟨Or.inl rfl, fun h => absurd rfl h, by decide, by decide⟩
  rcases dest with _ | dests
  · exact ⟨Or.inl rfl, fun h => absurd rfl h, by decide, by decide⟩
  rcases pr with _ | prc
  · exact ⟨Or.inl rfl, fun h => absurd rfl h, by decide, by decide⟩
  simp only [gdf_snmg_pagerank]
  split_ifs with h1 h2 h3 h4 h5
  · cases hcd : checkDevices srcs dests ng with
    | some e => exact ⟨Or.inl rfl, fun h => absurd rfl h, by decide,
        by decide⟩
    | none => exact ⟨Or.inr rfl, fun _ =>
        ⟨(gdf_snmg_pagerank_impl Precision.float32 sqrtFn c po offs inds
            ng df ni.toNat).col, rfl, rfl⟩, by decide, by decide⟩
  all_goals exact ⟨Or.inl rfl, fun h => absurd rfl h, by decide,
    by decide⟩

/-- Witness for C10 at a concrete input that reaches the engine. -/
theorem entry_always_float32_witness :
    ((gdf_snmg_pagerank id (fun _ => GdfError.GDF_SUCCESS) [0, 1]
          [[0, 0]] [[]] (some [colok]) (some [colok]) (some colok) 1 1
          ((1 : ℚ) / 2) 1).2.2 = none
        ∨ (gdf_snmg_pagerank id (fun _ => GdfError.GDF_SUCCESS) [0, 1]
            [[0, 0]] [[]] (some [colok]) (some [colok]) (some colok) 1 1
            ((1 : ℚ) / 2) 1).2.2 = some Precision.float32)
      ∧ ∃ col, (gdf_snmg_pagerank id (fun _ => GdfError.GDF_SUCCESS)
            [0, 1] [[0, 0]] [[]] (some [colok]) (some [colok])
            (some colok) 1 1 ((1 : ℚ) / 2) 1).2.1 = some col
          ∧ col.dtype = GdfDtype.GDF_FLOAT32 :=
  ⟨(entry_always_float32 id (fun _ => GdfError.GDF_SUCCESS) [0, 1]
      [[0, 0]] [[]] (some [colok]) (some [colok]) (some colok) 1 1
      ((1 : ℚ) / 2) 1).1,
    (entry_always_float32 id (fun _ => GdfError.GDF_SUCCESS) [0, 1]
      [[0, 0]] [[]] (some [colok]) (some [colok]) (some colok) 1 1
      ((1 : ℚ) / 2) 1).2.1 (by
        rw [entry_params_ok_none id (fun _ => GdfError.GDF_SUCCESS)
          [0, 1] [[0, 0]] [[]] [colok] [colok] colok 1 1 ((1 : ℚ) / 2) 1
          (by norm_num) (by norm_num) (by decide) (by decide)
          (by decide) (by decide)]
        simp)⟩

/-- C6: argument validation of the entry point precedes the engine (on
every validation failure the returned column is the untouched input and
no engine dispatch happens, hence zero device allocations), and maps
each violation to its status: any parameter violation (damping factor
outside the open unit interval, non-positive iteration count, zero or
too-large device count) to GDF_INVALID_API_CALL; at the first offending
device, a source/destination length mismatch to
GDF_COLUMN_SIZE_MISMATCH, a dtype mismatch or a non-GDF_INT32 dtype to
GDF_UNSUPPORTED_DTYPE, a nonzero null count to
GDF_VALIDITY_UNSUPPORTED; and when every check passes the call proceeds
to the engine. -/
theorem gdf_snmg_pagerank_validation (sqrtFn : ℚ → ℚ)
    (c : ℕ → GdfError) (po : List ℕ) (offs inds : List (List ℕ))
    (srcs dests : List GdfColumn) (prc : GdfColumn) (dc ng : ℕ)
    (df : ℚ) (ni : ℤ) :
    ((df ≤ 0 ∨ 1 ≤ df ∨ ni ≤ 0 ∨ ng = 0 ∨ dc < ng) →
        gdf_snmg_pagerank sqrtFn c po offs inds (some srcs) (some dests)
            (some prc) dc ng df ni =
          (GdfError.GDF_INVALID_API_CALL, some prc, none))
      ∧ (∀ i, 0 < df → df < 1 → 0 < ni → 0 < ng → ng ≤ dc → i < ng →
          (∀ j, j < i →
            perDeviceChecks (srcs.getD j dfltCol) (dests.getD j dfltCol)
              = none) →
          (((srcs.getD i dfltCol).size ≠ (dests.getD i dfltCol).size →
              gdf_snmg_pagerank sqrtFn c po offs inds (some srcs)
                  (some dests) (some prc) dc ng df ni =
                (GdfError.GDF_COLUMN_SIZE_MISMATCH, some prc, none))
            ∧ ((srcs.getD i dfltCol).size = (dests.getD i dfltCol).size →
                ((srcs.getD i dfltCol).dtype ≠
                    (dests.getD i dfltCol).dtype
                  ∨ ((srcs.getD i dfltCol).dtype =
                        (dests.getD i dfltCol).dtype
                      ∧ (srcs.getD i dfltCol).null_count = 0
                      ∧ (dests.getD i dfltCol).null_count = 0
                      ∧ (srcs.getD i dfltCol).dtype ≠
                          GdfDtype.GDF_INT32)) →
                gdf_snmg_pagerank sqrtFn c po offs inds (some srcs)
                    (some dests) (some prc) dc ng df ni =
                  (GdfError.GDF_UNSUPPORTED_DTYPE, some prc, none))
            ∧ ((srcs.getD i dfltCol).size = (dests.getD i dfltCol).size →
                (srcs.getD i dfltCol).dtype =
                  (dests.getD i dfltCol).dtype →
                ((srcs.getD i dfltCol).null_count ≠ 0
                  ∨ (dests.getD i dfltCol).null_count ≠ 0) →
                gdf_snmg_pagerank sqrtFn c po offs inds (some srcs)
                    (some dests) (some prc) dc ng df ni =
                  (GdfError.GDF_VALIDITY_UNSUPPORTED, some prc, none))))
      ∧ (0 < df → df < 1 → 0 < ni → 0 < ng → ng ≤ dc →
          (∀ i, i < ng →
            perDeviceChecks (srcs.getD i dfltCol) (dests.getD i dfltCol)
              = none) →
          gdf_snmg_pagerank sqrtFn c po offs inds (some srcs)
              (some dests) (some prc) dc ng df ni =
            ((gdf_snmg_pagerank_impl Precision.float32 sqrtFn c po offs
                inds ng df ni.toNat).status,
              some (gdf_snmg_pagerank_impl Precision.float32 sqrtFn c po
                offs inds ng df ni.toNat).col,
              some Precision.float32)) := by
  refine ⟨?_, ?_, ?_⟩
  · intro h
    simp only [gdf_snmg_pagerank]
    split_ifs with h1 h2 h3 h4 h5
    · exfalso
      rcases h with h | h | h | h | h
      · linarith
      · linarith
      · omega
      · omega
      · omega
    all_goals rfl
  · intro i hdf0 hdf1 hni hg hgd hi hpre
    refine ⟨?_, ?_, ?_⟩
    · intro hsz
      have he : perDeviceChecks (srcs.getD i dfltCol)
          (dests.getD i dfltCol) =
          some GdfError.GDF_COLUMN_SIZE_MISMATCH := by
        unfold perDeviceChecks
        rw [if_pos hsz]
      exact entry_params_ok_some sqrtFn c po offs inds srcs dests prc dc
        ng df ni _ hdf0 hdf1 hni hg hgd
        (checkDevicesFrom_some srcs dests _ i ng 0 hi
          (fun j hj => by simpa using hpre j hj) (by simpa using he))
    · intro hsz hcase
      have he : perDeviceChecks (srcs.getD i dfltCol)
          (dests.getD i dfltCol) =
          some GdfError.GDF_UNSUPPORTED_DTYPE := by
        unfold perDeviceChecks
        rcases hcase with hdt | ⟨hdt, hsn, hdn, hint⟩
        · rw [if_neg (not_not_intro hsz), if_pos hdt]
        · rw [if_neg (not_not_intro hsz), if_neg (not_not_intro hdt),
            if_neg (not_not_intro hsn), if_neg (not_not_intro hdn),
            if_pos hint]
      exact entry_params_ok_some sqrtFn c po offs inds srcs dests prc dc
        ng df ni _ hdf0 hdf1 hni hg hgd
        (checkDevicesFrom_some srcs dests _ i ng 0 hi
          (fun j hj => by simpa using hpre j hj) (by simpa using he))
    · intro hsz hdt hnull
      have he : perDeviceChecks (srcs.getD i dfltCol)
          (dests.getD i dfltCol) =
          some GdfError.GDF_VALIDITY_UNSUPPORTED := by
        unfold perDeviceChecks
        by_cases hsn : (srcs.getD i dfltCol).null_count ≠ 0
        · rw [if_neg (not_not_intro hsz), if_neg (not_not_intro hdt),
            if_pos hsn]
        · rcases hnull with h | h
          · exact absurd h hsn
          · rw [if_neg (not_not_intro hsz), if_neg (not_not_intro hdt),
              if_neg hsn, if_pos h]
      exact entry_params_ok_some sqrtFn c po offs inds srcs dests prc dc
        ng df ni _ hdf0 hdf1 hni hg hgd
        (checkDevicesFrom_some srcs dests _ i ng 0 hi
          (fun j hj => by simpa using hpre j hj) (by simpa using he))
  · intro hdf0 hdf1 hni hg hgd hchk
    have hcd : checkDevices srcs dests ng = none :=
      checkDevicesFrom_none srcs dests ng 0
        (fun j hj => by simpa using hchk j hj)
    rw [entry_params_ok_none sqrtFn c po offs inds srcs dests prc dc ng
      df ni hdf0 hdf1 hni hg hgd hcd]
    rfl

/-- A concrete input column differing from colok only in its length. -/
def colSz3 : GdfColumn :=
  { data := none, size := 3, dtype := GdfDtype.GDF_INT32,
    null_count := 0 }

/-- Witness for C6: a size-mismatch run yields
GDF_COLUMN_SIZE_MISMATCH with the output column untouched and no
dispatch, an out-of-range damping factor yields GDF_INVALID_API_CALL,
and a fully valid run proceeds to the engine. -/
theorem gdf_snmg_pagerank_validation_witness :
    (gdf_snmg_pagerank id (fun _ => GdfError.GDF_SUCCESS) [0, 1]
        [[0, 0]] [[]] (some [colSz3]) (some [colok]) (some colok) 1 1
        ((1 : ℚ) / 2) 1 =
      (GdfError.GDF_COLUMN_SIZE_MISMATCH, some colok, none))
      ∧ (gdf_snmg_pagerank id (fun _ => GdfError.GDF_SUCCESS) [0, 1]
          [[0, 0]] [[]] (some [colok]) (some [colok]) (some colok) 1 1
          (2 : ℚ) 1 =
        (GdfError.GDF_INVALID_API_CALL, some colok, none))
      ∧ (gdf_snmg_pagerank id (fun _ => GdfError.GDF_SUCCESS) [0, 1]
          [[0, 0]] [[]] (some [colok]) (some [colok]) (some colok) 1 1
          ((1 : ℚ) / 2) 1 =
        ((gdf_snmg_pagerank_impl Precision.float32 id
            (fun _ => GdfError.GDF_SUCCESS) [0, 1] [[0, 0]] [[]] 1
            ((1 : ℚ) / 2) 1).status,
          some (gdf_snmg_pagerank_impl Precision.float32 id
            (fun _ => GdfError.GDF_SUCCESS) [0, 1] [[0, 0]] [[]] 1
            ((1 : ℚ) / 2) 1).col,
          some Precision.float32)) :=
  ⟨((gdf_snmg_pagerank_validation id (fun _ => GdfError.GDF_SUCCESS)
        [0, 1] [[0, 0]] [[]] [colSz3] [colok] colok 1 1 ((1 : ℚ) / 2)
        1).2.1 0 (by norm_num) (by norm_num) (by decide) (by decide)
        (by decide) (by decide)
        (fun j hj => absurd hj (Nat.not_lt_zero j))).1 (by decide),
    (gdf_snmg_pagerank_validation id (fun _ => GdfError.GDF_SUCCESS)
        [0, 1] [[0, 0]] [[]] [colok] [colok] colok 1 1 (2 : ℚ) 1).1
      (Or.inr (Or.inl (by norm_num))),
    (gdf_snmg_pagerank_validation id (fun _ => GdfError.GDF_SUCCESS)
        [0, 1] [[0, 0]] [[]] [colok] [colok] colok 1 1 ((1 : ℚ) / 2)
        1).2.2 (by norm_num) (by norm_num) (by decide) (by decide)
      (by decide) (by decide)⟩

end cugraph
